import Mathlib

/-!
Verification development for the onboarding flow engine of the
lunaxcode-admin backend (src/app/services/onboarding_services.py, with the
data model from src/app/models/database.py and src/app/models/schemas.py).

The Python services are embedded as pure Lean functions over an explicit
database state.  Conventions:

* Python `datetime` values are modelled as natural-number timestamps; each
  service call receives the current clock value `now` (one value per call,
  standing for the `datetime.utcnow()` readings inside that call).
* Python `int` is `Int`; Python floor division `//` is `Int.fdiv`.
* `Optional[T]` is `Option T`; Python truthiness of an `Optional[int]` is
  "is `some t` with `t ≠ 0`", of an `Optional[datetime]` is `isSome`.
* JSON dictionaries (`Dict[str, Any]`) are association lists with string
  keys; their values are opaque strings.  Inert context/metadata columns
  (user agent, device type, screen resolution, scores, ...) that no
  embedded code path reads or branches on are omitted from the records.
* SQLAlchemy query results are lists; `ORDER BY` is `List.insertionSort`;
  `scalar_one_or_none` / `LIMIT 1` is `List.find?` / `List.head?`.
* Raised service exceptions (`NotFoundError`, `ValidationException`)
  become an error result.  Because every `create`/`update` in the source
  commits separately (no surrounding transaction), the flow operations are
  written in state-passing style `DBState → ... → DBState × Except ...`,
  so an exception raised mid-way leaves the mutations already committed.
-/

deriving instance DecidableEq for Except

namespace Onboarding

/-- `ServiceType` enum from src/app/models/database.py. -/
inductive ServiceType where
  | landing_page
  | web_app
  | mobile_app
deriving DecidableEq

/-- `StepName` enum from src/app/models/database.py. -/
inductive StepName where
  | service_selection
  | basic_info
  | service_requirements
  | review
  | confirmation
deriving DecidableEq

/-- `StepStatus` enum from src/app/models/database.py. -/
inductive StepStatus where
  | pending
  | in_progress
  | completed
  | skipped
  | error
deriving DecidableEq

/-- `ConversionStatus` enum from src/app/models/database.py. -/
inductive ConversionStatus where
  | completed
  | abandoned
  | in_progress
deriving DecidableEq

/-- A JSON object (`Dict[str, Any]`): an association list with opaque
string values, in insertion order. -/
abbrev JsonDict := List (String × String)

/-- `OnboardingStep` configuration row (fields the embedded code reads). -/
structure Step where
  id : String
  step_number : Int
  step_name : StepName
  required_fields : Option (List String)
  skip_conditions : Option JsonDict
  service_types : Option (List ServiceType)
  is_active : Bool
deriving DecidableEq

/-- `OnboardingStepProgress` row (fields the embedded code reads or writes). -/
structure StepProgress where
  id : String
  submission_id : Option String
  step_id : String
  step_number : Int
  step_name : StepName
  status : StepStatus
  step_data : Option JsonDict
  validation_errors : Option (List JsonDict)
  user_input : Option JsonDict
  started_at : Option Nat
  completed_at : Option Nat
  time_spent : Option Int
  attempt_count : Int
  navigation_history : Option (List JsonDict)
  exited_at : Option Nat
deriving DecidableEq

/-- `OnboardingAnalytics` row (fields the embedded code reads or writes). -/
structure Analytics where
  id : String
  session_id : String
  submission_id : Option String
  total_steps : Int
  completed_steps : Int
  skipped_steps : Int
  error_steps : Int
  total_time_spent : Int
  average_step_time : Int
  fastest_step : Option StepName
  slowest_step : Option StepName
  completion_rate : Int
  conversion_status : ConversionStatus
  error_count : Int
  back_navigation_count : Int
  created_at : Nat
  updated_at : Nat
deriving DecidableEq

/-- The relational store: the step catalog plus the progress and
analytics tables. -/
structure DBState where
  steps : List Step
  progress : List StepProgress
  analytics : List Analytics
deriving DecidableEq

/-- Raised service exceptions, as an error kind. -/
inductive FlowError where
  | notFound
  | validationException
deriving DecidableEq

/-- Ordering used by `ORDER BY step_number` on the step catalog. -/
def stepLE (a b : Step) : Prop := a.step_number ≤ b.step_number

instance : DecidableRel stepLE := fun a b => inferInstanceAs (Decidable (a.step_number ≤ b.step_number))

instance : IsTotal Step stepLE := ⟨fun a b => Int.le_total a.step_number b.step_number⟩

instance : IsTrans Step stepLE := ⟨fun _ _ _ h1 h2 => le_trans h1 h2⟩

/-- Ordering used by `ORDER BY step_number` on progress rows. -/
def progLE (a b : StepProgress) : Prop := a.step_number ≤ b.step_number

instance : DecidableRel progLE := fun a b => inferInstanceAs (Decidable (a.step_number ≤ b.step_number))

instance : IsTotal StepProgress progLE := ⟨fun a b => Int.le_total a.step_number b.step_number⟩

instance : IsTrans StepProgress progLE := ⟨fun _ _ _ h1 h2 => le_trans h1 h2⟩

/-- The applicability filter shared by the catalog queries:
`is_active == True AND (service_types @> [value] OR service_types IS NULL)`. -/
def stepApplicable (svc : ServiceType) (s : Step) : Bool :=
  s.is_active &&
    (match s.service_types with
     | some l => l.contains svc
     | none => true)

/-- `PostgresBaseService.get_by_id` on the step catalog. -/
def step_get_by_id (catalog : List Step) (id : String) : Option Step :=
  catalog.find? (fun s => s.id == id)

/-- `OnboardingStepsService.get_steps_for_service_type`: active steps whose
`service_types` contains the service type or is NULL, ordered by
`step_number`. -/
def get_steps_for_service_type (catalog : List Step) (svc : ServiceType) : List Step :=
  List.insertionSort stepLE (catalog.filter (stepApplicable svc))

/-- `OnboardingStepsService.get_next_step`: the first active, applicable
step with `step_number` strictly greater than the current step's. -/
def get_next_step (catalog : List Step) (current_step_id : String) (svc : ServiceType) : Option Step :=
  match step_get_by_id catalog current_step_id with
  | none => none
  | some cur =>
      (List.insertionSort stepLE
        (catalog.filter (fun s =>
          decide (cur.step_number < s.step_number) && stepApplicable svc s))).head?

/-- `OnboardingProgressService.get_session_progress`: all progress rows of
a session, ordered by `step_number`. -/
def get_session_progress (rows : List StepProgress) (session_id : String) : List StepProgress :=
  List.insertionSort progLE (rows.filter (fun p => p.submission_id == some session_id))

/-- `OnboardingProgressService.get_step_progress`: the progress row for a
(session, step) pair. -/
def get_step_progress (rows : List StepProgress) (session_id step_id : String) : Option StepProgress :=
  rows.find? (fun p => p.submission_id == some session_id && p.step_id == step_id)

/-- The keyword arguments accepted by `update_step_status` (the fields of
`OnboardingStepProgressUpdate` its call sites pass); `none` means the
keyword is absent. -/
structure ProgressKwargs where
  step_data : Option JsonDict := none
  validation_errors : Option (List JsonDict) := none
  user_input : Option JsonDict := none
  started_at : Option Nat := none
  completed_at : Option Nat := none
  time_spent : Option Int := none
  attempt_count : Option Int := none
  exited_at : Option Nat := none
deriving DecidableEq

/-- The `update_data` dict built inside `update_step_status`: the status
plus the remaining `OnboardingStepProgressUpdate` fields.  `none` stands
for a field that is absent or `None`; `PostgresBaseService.update` applies
the update with `exclude_none=True`, so such fields are left untouched. -/
structure ProgressUpdateData where
  status : StepStatus
  step_data : Option JsonDict := none
  validation_errors : Option (List JsonDict) := none
  user_input : Option JsonDict := none
  started_at : Option Nat := none
  completed_at : Option Nat := none
  time_spent : Option Int := none
  attempt_count : Option Int := none
  exited_at : Option Nat := none
deriving DecidableEq

/-- Keep the old field value when the update omits the field. -/
def mergeField {α : Type} (new : Option α) (old : Option α) : Option α :=
  match new with
  | some v => some v
  | none => old

/-- `PostgresBaseService.update` on a progress row: set every field the
update carries (non-`None` under `exclude_none=True`), keep the rest. -/
def applyProgressUpdate (p : StepProgress) (u : ProgressUpdateData) : StepProgress :=
  { p with
    status := u.status
    step_data := mergeField u.step_data p.step_data
    validation_errors := mergeField u.validation_errors p.validation_errors
    user_input := mergeField u.user_input p.user_input
    started_at := mergeField u.started_at p.started_at
    completed_at := mergeField u.completed_at p.completed_at
    time_spent := mergeField u.time_spent p.time_spent
    attempt_count := (u.attempt_count.map id).getD p.attempt_count
    exited_at := mergeField u.exited_at p.exited_at }

/-- The row-level core of `OnboardingProgressService.update_step_status`:
build `update_data = {"status": status, **kwargs}`, then, on first entry
into the corresponding phase, stamp the matching timestamp (overriding any
keyword of the same name), and apply the update to the row. -/
def update_step_status_row (now : Nat) (status : StepStatus) (kw : ProgressKwargs)
    (p : StepProgress) : StepProgress :=
  let u0 : ProgressUpdateData :=
    { status := status
      step_data := kw.step_data
      validation_errors := kw.validation_errors
      user_input := kw.user_input
      started_at := kw.started_at
      completed_at := kw.completed_at
      time_spent := kw.time_spent
      attempt_count := kw.attempt_count
      exited_at := kw.exited_at }
  let u :=
    if status = StepStatus.in_progress ∧ p.started_at = none then
      { u0 with started_at := some now }
    else if status = StepStatus.completed ∧ p.completed_at = none then
      { u0 with completed_at := some now }
    else if status = StepStatus.error ∧ p.exited_at = none then
      { u0 with exited_at := some now }
    else u0
  applyProgressUpdate p u

/-- `OnboardingProgressService.update_step_status`: look up the (session,
step) progress row, raise `NotFoundError` if absent, otherwise update the
row (identified by its primary key) in the table.  Returns the updated
table together with the updated row. -/
def update_step_status (now : Nat) (rows : List StepProgress) (session_id step_id : String)
    (status : StepStatus) (kw : ProgressKwargs) :
    Except FlowError (List StepProgress × StepProgress) :=
  match get_step_progress rows session_id step_id with
  | none => Except.error FlowError.notFound
  | some p =>
      let p2 := update_step_status_row now status kw p
      Except.ok (rows.map (fun r => if r.id == p.id then p2 else r), p2)

/-- `OnboardingProgressService.calculate_time_spent`: `0` when the row (or
its `started_at`) is missing, else `(completed_at or exited_at or now) -
started_at` in whole seconds. -/
def calculate_time_spent (now : Nat) (rows : List StepProgress) (session_id step_id : String) : Int :=
  match get_step_progress rows session_id step_id with
  | none => 0
  | some p =>
      match p.started_at with
      | none => 0
      | some s =>
          let e := p.completed_at.getD (p.exited_at.getD now)
          (e : Int) - (s : Int)

/-- Count of progress records with a given status (as a Python `int`). -/
def countStatus (st : StepStatus) (ps : List StepProgress) : Int :=
  ((ps.filter (fun p => p.status == st)).length : Int)

/-- `sum(p.time_spent or 0 for p in progress_records)`. -/
def sumTimeSpent (ps : List StepProgress) : Int :=
  ps.foldl (fun acc p => acc + p.time_spent.getD 0) 0

/-- Python truthiness of an `Optional[int]`: present and non-zero. -/
def intTruthy (t : Option Int) : Bool :=
  match t with
  | some v => v != 0
  | none => false

/-- The records over which `fastest_step`/`slowest_step` are computed:
`p.status == StepStatus.COMPLETED and p.time_spent` (truthiness, so a zero
`time_spent` is excluded along with a missing one). -/
def completedWithTime (ps : List StepProgress) : List StepProgress :=
  ps.filter (fun p => p.status == StepStatus.completed && intTruthy p.time_spent)

/-- The `key=lambda x: x.time_spent` used by `min`/`max`. -/
def timeKey (p : StepProgress) : Int := p.time_spent.getD 0

/-- Python `min(l, key=timeKey)` (first element attaining the minimum). -/
def pyMinAux (best : StepProgress) : List StepProgress → StepProgress
  | [] => best
  | q :: qs => pyMinAux (if timeKey q < timeKey best then q else best) qs

/-- Python `max(l, key=timeKey)` (first element attaining the maximum). -/
def pyMaxAux (best : StepProgress) : List StepProgress → StepProgress
  | [] => best
  | q :: qs => pyMaxAux (if timeKey best < timeKey q then q else best) qs

/-- `min(completed_progress, key=...) if completed_progress else None`. -/
def pyMin : List StepProgress → Option StepProgress
  | [] => none
  | p :: ps => some (pyMinAux p ps)

/-- `max(completed_progress, key=...) if completed_progress else None`. -/
def pyMax : List StepProgress → Option StepProgress
  | [] => none
  | p :: ps => some (pyMaxAux p ps)

/-- `sum(p.attempt_count - 1 for p in progress_records)`. -/
def sumAttemptExcess (ps : List StepProgress) : Int :=
  ps.foldl (fun acc p => acc + (p.attempt_count - 1)) 0

/-- `sum(len(p.navigation_history or []) for p in progress_records)`. -/
def sumNavigationLengths (ps : List StepProgress) : Int :=
  ps.foldl (fun acc p => acc + (((p.navigation_history.getD []).length : Int))) 0

/-- The pure core of
`OnboardingAnalyticsService.update_analytics_from_progress`: recompute the
rollup fields from the progress records and apply them to the analytics
row.  The update is applied with `exclude_none=True`, so a `None`
`fastest_step`/`slowest_step` leaves the previously stored value in place
rather than clearing it; every other recomputed field is always set. -/
def update_analytics_from_progress (a : Analytics) (ps : List StepProgress) : Analytics :=
  let completed_steps := countStatus StepStatus.completed ps
  let skipped_steps := countStatus StepStatus.skipped ps
  let error_steps := countStatus StepStatus.error ps
  let total_time := sumTimeSpent ps
  let avg_time := if completed_steps > 0 then total_time.fdiv (max completed_steps 1) else 0
  let completion_rate :=
    if a.total_steps > 0 then (completed_steps * 100).fdiv a.total_steps else 0
  let completed_progress := completedWithTime ps
  let fastest_step := (pyMin completed_progress).map (fun p => p.step_name)
  let slowest_step := (pyMax completed_progress).map (fun p => p.step_name)
  let conversion_status :=
    if completion_rate ≥ 100 then ConversionStatus.completed
    else if ps.any (fun p => p.status == StepStatus.error) then ConversionStatus.abandoned
    else ConversionStatus.in_progress
  { a with
    completed_steps := completed_steps
    skipped_steps := skipped_steps
    error_steps := error_steps
    total_time_spent := total_time
    average_step_time := avg_time
    fastest_step := mergeField fastest_step a.fastest_step
    slowest_step := mergeField slowest_step a.slowest_step
    completion_rate := completion_rate
    conversion_status := conversion_status
    error_count := sumAttemptExcess ps
    back_navigation_count := sumNavigationLengths ps }

/-- `OnboardingAnalyticsService.get_by_session_id`. -/
def analytics_get_by_session_id (table : List Analytics) (session_id : String) : Option Analytics :=
  table.find? (fun a => a.session_id == session_id)

/-- Table-level `update_analytics_from_progress`: look the row up by
session id, raise `NotFoundError` if absent, else recompute and persist it
(the base model refreshes `updated_at` on every update). -/
def db_update_analytics_from_progress (now : Nat) (table : List Analytics) (session_id : String)
    (ps : List StepProgress) : Except FlowError (List Analytics × Analytics) :=
  match analytics_get_by_session_id table session_id with
  | none => Except.error FlowError.notFound
  | some a =>
      let a2 := { update_analytics_from_progress a ps with updated_at := now }
      Except.ok (table.map (fun r => if r.id == a.id then a2 else r), a2)

/-- `StartOnboardingFlowRequest` (inert client-context fields omitted). -/
structure StartOnboardingFlowRequest where
  service_type : ServiceType
deriving DecidableEq

/-- `SubmitStepDataRequest` (inert client-context fields omitted). -/
structure SubmitStepDataRequest where
  session_id : String
  step_id : String
  step_data : JsonDict
  time_spent : Option Int := none
deriving DecidableEq

/-- `ValidationResult` schema. -/
structure ValidationResult where
  is_valid : Bool
  errors : List JsonDict
  warnings : List JsonDict
deriving DecidableEq

/-- `OnboardingFlowConfig` schema. -/
structure OnboardingFlowConfig where
  steps : List Step
  service_type : ServiceType
  total_steps : Int
  current_step : Int
  progress : Int
  can_go_back : Bool
  can_go_next : Bool
  can_skip : Bool
deriving DecidableEq

/-- The dictionary returned by `OnboardingFlowService.start_flow`. -/
structure StartFlowResult where
  session_id : String
  flow_config : OnboardingFlowConfig
  current_step : Option Step
  analytics_id : String
deriving DecidableEq

/-- The dictionary returned by `OnboardingFlowService.submit_step_data`. -/
structure SubmitStepDataResult where
  success : Bool
  validation_result : ValidationResult
  next_step : Option Step
  progress_percentage : Int
  can_proceed : Bool
deriving DecidableEq

/-- `OnboardingFlowState` schema. -/
structure OnboardingFlowState where
  session_id : String
  submission_id : Option String
  current_step : Int
  current_step_name : StepName
  step_history : List String
  form_data : JsonDict
  service_type : ServiceType
  is_complete : Bool
  started_at : Nat
  last_active_at : Nat
deriving DecidableEq

/-- The fresh `OnboardingAnalytics` row created by `start_flow`
(`OnboardingAnalyticsCreate` with its schema defaults). -/
def initAnalyticsRow (analytics_id session_id : String) (total_steps : Int) (now : Nat) : Analytics :=
  { id := analytics_id
    session_id := session_id
    submission_id := none
    total_steps := total_steps
    completed_steps := 0
    skipped_steps := 0
    error_steps := 0
    total_time_spent := 0
    average_step_time := 0
    fastest_step := none
    slowest_step := none
    completion_rate := 0
    conversion_status := ConversionStatus.in_progress
    error_count := 0
    back_navigation_count := 0
    created_at := now
    updated_at := now }

/-- The fresh `OnboardingStepProgress` row `start_flow` creates for one
step: `PENDING` unless `step_number <= 1`, `started_at = now` exactly when
`step_number == 1`, remaining fields at their schema defaults.  The row id
is generated by the store; it is modelled as `session_id ++ "/" ++ step.id`. -/
def initProgressRow (session_id : String) (now : Nat) (step : Step) : StepProgress :=
  { id := session_id ++ "/" ++ step.id
    submission_id := some session_id
    step_id := step.id
    step_number := step.step_number
    step_name := step.step_name
    status := if step.step_number > 1 then StepStatus.pending else StepStatus.in_progress
    step_data := none
    validation_errors := none
    user_input := none
    started_at := if step.step_number = 1 then some now else none
    completed_at := none
    time_spent := none
    attempt_count := 1
    navigation_history := none
    exited_at := none }

/-- `OnboardingFlowService.start_flow`.  The generated session id is a
parameter (the source draws a fresh UUID); the analytics row id is
modelled as `"a/" ++ session_id`.  State-passing: a raised
`ValidationException` (no applicable steps) leaves the store untouched,
since the check precedes every create. -/
def start_flow (db : DBState) (req : StartOnboardingFlowRequest) (session_id : String) (now : Nat) :
    DBState × Except FlowError StartFlowResult :=
  let steps := get_steps_for_service_type db.steps req.service_type
  if steps.isEmpty then
    (db, Except.error FlowError.validationException)
  else
    let analytics := initAnalyticsRow ("a/" ++ session_id) session_id (steps.length : Int) now
    let newRows := steps.map (initProgressRow session_id now)
    let db2 := { db with analytics := db.analytics ++ [analytics], progress := db.progress ++ newRows }
    let flow_config : OnboardingFlowConfig :=
      { steps := steps
        service_type := req.service_type
        total_steps := (steps.length : Int)
        current_step := 1
        progress := 0
        can_go_back := false
        can_go_next := true
        can_skip :=
          match steps.head? with
          | some s => s.skip_conditions.isSome
          | none => false }
    (db2,
      Except.ok
        { session_id := session_id
          flow_config := flow_config
          current_step := steps.head?
          analytics_id := analytics.id })

/-- The progress-percentage computation at the end of `submit_step_data`:
`completed_count * 100 // len(all_progress)`. -/
def progressPct (all_progress : List StepProgress) : Int :=
  (((all_progress.filter (fun p => p.status == StepStatus.completed)).length : Int) * 100).fdiv
    (all_progress.length : Int)

/-- The tail of `submit_step_data` (source lines 439-453): recompute the
session's analytics over all of its progress rows, then return the result
dictionary.  Raises `NotFoundError` (keeping the progress mutations
already committed) when the session has no analytics row. -/
def submitFinish (db : DBState) (session_id : String) (now : Nat)
    (validation_result : ValidationResult) (next_step : Option Step) :
    DBState × Except FlowError SubmitStepDataResult :=
  let all_progress := get_session_progress db.progress session_id
  match db_update_analytics_from_progress now db.analytics session_id all_progress with
  | Except.error e => (db, Except.error e)
  | Except.ok (table2, _) =>
      let db2 := { db with analytics := table2 }
      (db2,
        Except.ok
          { success := true
            validation_result := validation_result
            next_step := next_step
            progress_percentage := progressPct all_progress
            can_proceed := next_step.isSome })

/-- `OnboardingFlowService.submit_step_data`.  Notable source behaviour
kept as-is: the validation result is a constant success stub; the
`time_spent` fallback uses Python truthiness (`request.time_spent or
calculate_time_spent(...)`); the next step is looked up with the constant
`ServiceType.LANDING_PAGE` (marked TODO in the source) instead of the
session's service type; and explicit `completed_at`/`started_at` keyword
arguments are passed to `update_step_status`. -/
def submit_step_data (db : DBState) (req : SubmitStepDataRequest) (now : Nat) :
    DBState × Except FlowError SubmitStepDataResult :=
  match get_step_progress db.progress req.session_id req.step_id with
  | none => (db, Except.error FlowError.notFound)
  | some _ =>
      let validation_result : ValidationResult := { is_valid := true, errors := [], warnings := [] }
      let time_spent : Int :=
        match req.time_spent with
        | some t => if t = 0 then calculate_time_spent now db.progress req.session_id req.step_id else t
        | none => calculate_time_spent now db.progress req.session_id req.step_id
      match update_step_status now db.progress req.session_id req.step_id StepStatus.completed
          { step_data := some req.step_data
            user_input := some req.step_data
            time_spent := some time_spent
            completed_at := some now } with
      | Except.error e => (db, Except.error e)
      | Except.ok (rows1, _) =>
          let db1 := { db with progress := rows1 }
          let next_step := get_next_step db.steps req.step_id ServiceType.landing_page
          match next_step with
          | some ns =>
              match update_step_status now db1.progress req.session_id ns.id
                  StepStatus.in_progress { started_at := some now } with
              | Except.error e => (db1, Except.error e)
              | Except.ok (rows2, _) =>
                  submitFinish { db1 with progress := rows2 } req.session_id now
                    validation_result next_step
          | none => submitFinish db1 req.session_id now validation_result next_step

/-- Python `dict.update`: overwrite the values of existing keys in place,
append new keys in order. -/
def dictUpdate (d1 d2 : JsonDict) : JsonDict :=
  (d1.map (fun kv =>
    match d2.find? (fun kv2 => kv2.1 == kv.1) with
    | some kv2 => (kv.1, kv2.2)
    | none => kv)) ++
  d2.filter (fun kv2 => !(d1.any (fun kv => kv.1 == kv2.1)))

/-- `OnboardingFlowService.get_flow_state`: `none` without an analytics
row; otherwise the current step is the `in_progress` row (else the last
row in step order, else defaults 1 / `service_selection`), the history is
the completed step ids, and the form data is the left-fold `dict.update`
of the non-empty `step_data` payloads.  The service type is the constant
`ServiceType.LANDING_PAGE` (marked TODO in the source). -/
def get_flow_state (db : DBState) (session_id : String) : Option OnboardingFlowState :=
  match analytics_get_by_session_id db.analytics session_id with
  | none => none
  | some analytics =>
      let progress_records := get_session_progress db.progress session_id
      let current_progress :=
        match progress_records.find? (fun p => p.status == StepStatus.in_progress) with
        | some p => some p
        | none => progress_records.getLast?
      let form_data :=
        progress_records.foldl
          (fun acc p =>
            match p.step_data with
            | some d => if d.isEmpty then acc else dictUpdate acc d
            | none => acc)
          []
      some
        { session_id := session_id
          submission_id := analytics.submission_id
          current_step :=
            match current_progress with
            | some p => p.step_number
            | none => 1
          current_step_name :=
            match current_progress with
            | some p => p.step_name
            | none => StepName.service_selection
          step_history :=
            (progress_records.filter (fun p => p.status == StepStatus.completed)).map
              (fun p => p.step_id)
          form_data := form_data
          service_type := ServiceType.landing_page
          is_complete := analytics.conversion_status == ConversionStatus.completed
          started_at := analytics.created_at
          last_active_at := analytics.updated_at }

/-- Boolean success test on a service result. -/
def resultIsOk {α : Type} : Except FlowError α → Bool
  | Except.ok _ => true
  | Except.error _ => false

/-!  Concrete step-catalog rows, sessions and requests used to evaluate
the embedded services at specific inputs. -/

/-- Step 1, applies to all service types, declares a required field. -/
def stepSel : Step :=
  { id := "A", step_number := 1, step_name := StepName.service_selection,
    required_fields := some ["name"], skip_conditions := none, service_types := none,
    is_active := true }

/-- Step 1 without declared required fields. -/
def stepSelNoReq : Step := { stepSel with required_fields := none }

/-- Step 2, restricted to the landing-page service type. -/
def stepInfoLP : Step :=
  { id := "B", step_number := 2, step_name := StepName.basic_info,
    required_fields := none, skip_conditions := none,
    service_types := some [ServiceType.landing_page], is_active := true }

/-- Step 2, applies to all service types. -/
def stepInfoAll : Step := { stepInfoLP with service_types := none }

/-- Step 3, restricted to the web-app service type. -/
def stepRevWA : Step :=
  { id := "C", step_number := 3, step_name := StepName.review,
    required_fields := none, skip_conditions := none,
    service_types := some [ServiceType.web_app], is_active := true }

/-- Step 3, applies to all service types. -/
def stepRevAll : Step := { stepRevWA with service_types := none }

/-- An active step whose `service_types` is a present but empty list. -/
def stepEmptySvc : Step :=
  { id := "E", step_number := 1, step_name := StepName.service_selection,
    required_fields := none, skip_conditions := none, service_types := some [],
    is_active := true }

/-- A progress row of session "s" on step "A", in progress since time 0. -/
def rowBase : StepProgress :=
  { id := "s/A", submission_id := some "s", step_id := "A", step_number := 1,
    step_name := StepName.service_selection, status := StepStatus.in_progress,
    step_data := none, validation_errors := none, user_input := none,
    started_at := some 0, completed_at := none, time_spent := none,
    attempt_count := 1, navigation_history := none, exited_at := none }

/-- Session "s" on a one-step catalog whose only step declares the
required field "name"; flow freshly started. -/
def dbC1 : DBState :=
  (start_flow { steps := [stepSel], progress := [], analytics := [] }
    { service_type := ServiceType.landing_page } "s" 0).1

/-- A submission for that step whose payload is the empty dict, hence
missing the declared required field "name". -/
def reqC1 : SubmitStepDataRequest :=
  { session_id := "s", step_id := "A", step_data := [], time_spent := some 3 }

/-- The result `submit_step_data` produces on the payload missing the
required field: unconditional success. -/
def resC1 : SubmitStepDataResult :=
  { success := true
    validation_result := { is_valid := true, errors := [], warnings := [] }
    next_step := none
    progress_percentage := 100
    can_proceed := false }

/-- A catalog whose applicable steps for web_app are numbered 2 and 3
(no step number 1). -/
def dbC3 : DBState := { steps := [stepInfoAll, stepRevAll], progress := [], analytics := [] }

def reqC3 : StartOnboardingFlowRequest := { service_type := ServiceType.web_app }

/-- A web-app session "s": its applicable steps are A (number 1, all
types) and C (number 3, web_app); B (number 2) is landing-page-only, so
the session has no progress row for B. -/
def dbC4 : DBState :=
  { steps := [stepSel, stepInfoLP, stepRevWA]
    progress := [rowBase,
      { rowBase with id := "s/C", step_id := "C", step_number := 3,
                     step_name := StepName.review, status := StepStatus.pending,
                     started_at := none }]
    analytics := [initAnalyticsRow "a/s" "s" 2 0] }

def reqC4 : SubmitStepDataRequest :=
  { session_id := "s", step_id := "A", step_data := [("svc", "x")], time_spent := some 3 }

/-- A freshly started two-step landing-page flow (steps A and B apply to
every service type). -/
def dbFlow2 : DBState :=
  (start_flow { steps := [stepSelNoReq, stepInfoAll], progress := [], analytics := [] }
    { service_type := ServiceType.landing_page } "s" 0).1

def reqSubA : SubmitStepDataRequest :=
  { session_id := "s", step_id := "A", step_data := [("a", "1")], time_spent := some 3 }

def reqSubB : SubmitStepDataRequest :=
  { session_id := "s", step_id := "B", step_data := [("b", "2")], time_spent := some 4 }

/-- First submission: step A at time 10. -/
def subA1 : DBState × Except FlowError SubmitStepDataResult := submit_step_data dbFlow2 reqSubA 10

/-- Second submission: step B at time 20 (the flow is now complete). -/
def subB2 : DBState × Except FlowError SubmitStepDataResult := submit_step_data subA1.1 reqSubB 20

/-- Third submission: step A again at time 30. -/
def subA3 : DBState × Except FlowError SubmitStepDataResult := submit_step_data subB2.1 reqSubA 30

/-- A session with an analytics row but no progress rows at all. -/
def dbC10 : DBState :=
  { steps := [], progress := [], analytics := [initAnalyticsRow "a/s" "s" 3 7] }

/-- An analytics row with two total steps. -/
def aW2 : Analytics := initAnalyticsRow "a" "s" 2 0

/-- One completed progress record with 4 seconds spent. -/
def psW2 : List StepProgress :=
  [{ rowBase with status := StepStatus.completed, time_spent := some 4 }]

/-- An analytics row with one total step. -/
def aC6 : Analytics := initAnalyticsRow "a" "s" 1 0

/-- A single in-progress (not completed) record with 5 seconds spent. -/
def pC6 : StepProgress := { rowBase with time_spent := some 5 }

/-- An analytics row that already stores fastest/slowest step names. -/
def aC7 : Analytics :=
  { aC6 with fastest_step := some StepName.review, slowest_step := some StepName.review }

/-- A completed record whose `time_spent` is present but zero. -/
def pC7 : StepProgress := { rowBase with status := StepStatus.completed, time_spent := some 0 }

/-- Two completed records with distinct positive times (4s on step A,
2s on step B). -/
def psW7 : List StepProgress :=
  [{ rowBase with status := StepStatus.completed, time_spent := some 4 },
   { rowBase with id := "s/B", step_id := "B", step_number := 2,
                  step_name := StepName.basic_info, status := StepStatus.completed,
                  time_spent := some 2 }]

/-- A catalog whose only step is restricted to web_app, so no step is
applicable to a landing-page flow. -/
def dbW5 : DBState := { steps := [stepRevWA], progress := [], analytics := [] }

def reqW5 : StartOnboardingFlowRequest := { service_type := ServiceType.landing_page }

/-!  Helper lemmas. -/

/-- Counts of records by status are non-negative. -/
theorem countStatus_nonneg (st : StepStatus) (ps : List StepProgress) :
    0 ≤ countStatus st ps :=
  Int.ofNat_nonneg _

/-- Integer floor division bound: when `0 ≤ c ≤ t` and `0 < t`,
`c * 100 // t` lies in `[0, 100]`. -/
theorem rate_fdiv_bounds (c t : Int) (h0 : 0 ≤ c) (h1 : c ≤ t) (h2 : 0 < t) :
    0 ≤ (c * 100).fdiv t ∧ (c * 100).fdiv t ≤ 100 := by
  rw [Int.fdiv_eq_ediv _ (le_of_lt h2)]
  constructor
  · exact Int.ediv_nonneg (by positivity) (le_of_lt h2)
  · calc (c * 100) / t ≤ (t * 100) / t := Int.ediv_le_ediv h2 (by nlinarith)
      _ = 100 := Int.mul_ediv_cancel_left 100 (ne_of_gt h2)

/-- The progress percentage returned by `submit_step_data` is in
`[0, 100]` for every list of progress rows. -/
theorem progressPct_bounds (l : List StepProgress) :
    0 ≤ progressPct l ∧ progressPct l ≤ 100 := by
  unfold progressPct
  rcases Nat.eq_zero_or_pos l.length with h | h
  · have hf : (l.filter (fun p => p.status == StepStatus.completed)).length = 0 :=
      Nat.le_zero.mp (h ▸ List.length_filter_le _ l)
    simp [hf, h, Int.fdiv_zero]
  · exact rate_fdiv_bounds _ _ (by positivity)
      (by exact_mod_cast List.length_filter_le _ l) (by exact_mod_cast h)

/-- Membership characterisation of the applicability filter. -/
theorem stepApplicable_iff (svc : ServiceType) (s : Step) :
    stepApplicable svc s = true ↔
      (s.is_active = true ∧
        (s.service_types = none ∨ ∃ l, s.service_types = some l ∧ svc ∈ l)) := by
  unfold stepApplicable
  cases h : s.service_types with
  | none => simp
  | some l => simp [List.contains_iff_exists_mem_beq]

/-- `pyMinAux b l` is `b` or an element of `l`, and its key is minimal
among `b` and the elements of `l`. -/
theorem pyMinAux_spec (l : List StepProgress) : ∀ b : StepProgress,
    (pyMinAux b l = b ∨ pyMinAux b l ∈ l) ∧
    timeKey (pyMinAux b l) ≤ timeKey b ∧
    ∀ q ∈ l, timeKey (pyMinAux b l) ≤ timeKey q := by
  induction l with
  | nil => intro b; exact ⟨Or.inl rfl, le_refl _, by intro q hq; cases hq⟩
  | cons q qs ih =>
    intro b
    by_cases hqb : timeKey q < timeKey b
    · have he : pyMinAux b (q :: qs) = pyMinAux q qs := by
        simp [pyMinAux, hqb]
      obtain ⟨hmem, hle, hall⟩ := ih q
      rw [he]
      refine ⟨?_, le_trans hle (le_of_lt hqb), ?_⟩
      · rcases hmem with h | h
        · exact Or.inr (by rw [h]; exact List.mem_cons_self q qs)
        · exact Or.inr (List.mem_cons_of_mem q h)
      · intro r hr
        rcases List.mem_cons.mp hr with rfl | hr
        · exact hle
        · exact hall r hr
    · have he : pyMinAux b (q :: qs) = pyMinAux b qs := by
        simp [pyMinAux, hqb]
      obtain ⟨hmem, hle, hall⟩ := ih b
      rw [he]
      refine ⟨?_, hle, ?_⟩
      · rcases hmem with h | h
        · exact Or.inl h
        · exact Or.inr (List.mem_cons_of_mem q h)
      · intro r hr
        rcases List.mem_cons.mp hr with rfl | hr
        · exact le_trans hle (not_lt.mp hqb)
        · exact hall r hr

/-- `pyMaxAux b l` is `b` or an element of `l`, and its key is maximal
among `b` and the elements of `l`. -/
theorem pyMaxAux_spec (l : List StepProgress) : ∀ b : StepProgress,
    (pyMaxAux b l = b ∨ pyMaxAux b l ∈ l) ∧
    timeKey b ≤ timeKey (pyMaxAux b l) ∧
    ∀ q ∈ l, timeKey q ≤ timeKey (pyMaxAux b l) := by
  induction l with
  | nil => intro b; exact ⟨Or.inl rfl, le_refl _, by intro q hq; cases hq⟩
  | cons q qs ih =>
    intro b
    by_cases hqb : timeKey b < timeKey q
    · have he : pyMaxAux b (q :: qs) = pyMaxAux q qs := by
        simp [pyMaxAux, hqb]
      obtain ⟨hmem, hle, hall⟩ := ih q
      rw [he]
      refine ⟨?_, le_trans (le_of_lt hqb) hle, ?_⟩
      · rcases hmem with h | h
        · exact Or.inr (by rw [h]; exact List.mem_cons_self q qs)
        · exact Or.inr (List.mem_cons_of_mem q h)
      · intro r hr
        rcases List.mem_cons.mp hr with rfl | hr
        · exact hle
        · exact hall r hr
    · have he : pyMaxAux b (q :: qs) = pyMaxAux b qs := by
        simp [pyMaxAux, hqb]
      obtain ⟨hmem, hle, hall⟩ := ih b
      rw [he]
      refine ⟨?_, hle, ?_⟩
      · rcases hmem with h | h
        · exact Or.inl h
        · exact Or.inr (List.mem_cons_of_mem q h)
      · intro r hr
        rcases List.mem_cons.mp hr with rfl | hr
        · exact le_trans (not_lt.mp hqb) hle
        · exact hall r hr

/-- On a non-empty list, Python `min(l, key=timeKey)` returns an element
of the list whose key is minimal. -/
theorem pyMin_spec (l : List StepProgress) (h : l ≠ []) :
    ∃ p, pyMin l = some p ∧ p ∈ l ∧ ∀ q ∈ l, timeKey p ≤ timeKey q := by
  cases l with
  | nil => exact absurd rfl h
  | cons x xs =>
    obtain ⟨hmem, hle, hall⟩ := pyMinAux_spec xs x
    refine ⟨pyMinAux x xs, rfl, ?_, ?_⟩
    · rcases hmem with h2 | h2
      · exact (by rw [h2]; exact List.mem_cons_self x xs : pyMinAux x xs ∈ x :: xs)
      · exact List.mem_cons_of_mem x h2
    · intro q hq
      rcases List.mem_cons.mp hq with rfl | hq
      · exact hle
      · exact hall q hq

/-- On a non-empty list, Python `max(l, key=timeKey)` returns an element
of the list whose key is maximal. -/
theorem pyMax_spec (l : List StepProgress) (h : l ≠ []) :
    ∃ p, pyMax l = some p ∧ p ∈ l ∧ ∀ q ∈ l, timeKey q ≤ timeKey p := by
  cases l with
  | nil => exact absurd rfl h
  | cons x xs =>
    obtain ⟨hmem, hle, hall⟩ := pyMaxAux_spec xs x
    refine ⟨pyMaxAux x xs, rfl, ?_, ?_⟩
    · rcases hmem with h2 | h2
      · exact (by rw [h2]; exact List.mem_cons_self x xs : pyMaxAux x xs ∈ x :: xs)
      · exact List.mem_cons_of_mem x h2
    · intro q hq
      rcases List.mem_cons.mp hq with rfl | hq
      · exact hle
      · exact hall q hq

/-! Claim theorems. -/

/-- C2: after every `update_analytics_from_progress` call on an analytics
row with a positive `total_steps`, the updated row satisfies
`completion_rate = floor(completed_steps * 100 / total_steps)`;
`conversion_status = completed` if and only if `completion_rate >= 100`;
and when `completion_rate < 100`, `conversion_status` is `abandoned` when
some progress record currently has status `error` and `in_progress`
otherwise. -/
theorem C2_analytics_invariant (a : Analytics) (ps : List StepProgress)
    (h : 0 < a.total_steps) :
    (update_analytics_from_progress a ps).completion_rate =
      ((update_analytics_from_progress a ps).completed_steps * 100).fdiv
        (update_analytics_from_progress a ps).total_steps
    ∧ ((update_analytics_from_progress a ps).conversion_status = ConversionStatus.completed ↔
        100 ≤ (update_analytics_from_progress a ps).completion_rate)
    ∧ ((update_analytics_from_progress a ps).completion_rate < 100 →
        (update_analytics_from_progress a ps).conversion_status =
          (if ps.any (fun p => p.status == StepStatus.error) then ConversionStatus.abandoned
           else ConversionStatus.in_progress)) := by
  unfold update_analytics_from_progress
  dsimp only
  rw [if_pos h]
  refine ⟨rfl, ?_, ?_⟩
  · by_cases hr : 100 ≤ (countStatus StepStatus.completed ps * 100).fdiv a.total_steps
    · rw [if_pos hr]
      simp [hr]
    · rw [if_neg hr]
      constructor
      · intro hcontra
        by_cases he : ps.any (fun p => p.status == StepStatus.error)
        · rw [if_pos he] at hcontra; cases hcontra
        · rw [if_neg he] at hcontra; cases hcontra
      · intro hge; exact absurd hge hr
  · intro hlt
    rw [if_neg (not_le.mpr hlt)]

/-- C2 witness: a concrete analytics row with two total steps and one
completed record. -/
theorem C2_analytics_invariant_witness :
    0 < aW2.total_steps
    ∧ ((update_analytics_from_progress aW2 psW2).completion_rate =
        ((update_analytics_from_progress aW2 psW2).completed_steps * 100).fdiv
          (update_analytics_from_progress aW2 psW2).total_steps
      ∧ ((update_analytics_from_progress aW2 psW2).conversion_status = ConversionStatus.completed ↔
          100 ≤ (update_analytics_from_progress aW2 psW2).completion_rate)
      ∧ ((update_analytics_from_progress aW2 psW2).completion_rate < 100 →
          (update_analytics_from_progress aW2 psW2).conversion_status =
            (if psW2.any (fun p => p.status == StepStatus.error) then ConversionStatus.abandoned
             else ConversionStatus.in_progress))) :=
  ⟨by decide, C2_analytics_invariant aW2 psW2 (by decide)⟩

/-- C6 counterexample: with one in-progress (not completed) record that
has spent 5 seconds, `completed_steps = 0` and the formula
`total_time_spent / max(completed_steps, 1)` yields 5, but the code stores
`average_step_time = 0`. -/
theorem C6_counterexample :
    (update_analytics_from_progress aC6 [pC6]).total_time_spent = 5
    ∧ countStatus StepStatus.completed [pC6] = 0
    ∧ (update_analytics_from_progress aC6 [pC6]).average_step_time = 0
    ∧ (update_analytics_from_progress aC6 [pC6]).average_step_time ≠
        (update_analytics_from_progress aC6 [pC6]).total_time_spent.fdiv
          (max (countStatus StepStatus.completed [pC6]) 1) := by decide

/-- C6 (amended): `average_step_time = total_time_spent / max(completed_steps, 1)`
(integer division) when `completed_steps > 0`, and `0` when
`completed_steps = 0`. -/
theorem C6_average_step_time (a : Analytics) (ps : List StepProgress) :
    (0 < (update_analytics_from_progress a ps).completed_steps →
      (update_analytics_from_progress a ps).average_step_time =
        (update_analytics_from_progress a ps).total_time_spent.fdiv
          (max (update_analytics_from_progress a ps).completed_steps 1))
    ∧ ((update_analytics_from_progress a ps).completed_steps = 0 →
      (update_analytics_from_progress a ps).average_step_time = 0) := by
  unfold update_analytics_from_progress
  dsimp only
  constructor
  · intro hc
    rw [if_pos hc]
  · intro hc
    rw [if_neg (by omega)]

/-- C6 witness: one completed record with 4 seconds spent. -/
theorem C6_average_step_time_witness :
    0 < (update_analytics_from_progress aW2 psW2).completed_steps
    ∧ (update_analytics_from_progress aW2 psW2).average_step_time =
        (update_analytics_from_progress aW2 psW2).total_time_spent.fdiv
          (max (update_analytics_from_progress aW2 psW2).completed_steps 1) :=
  ⟨by decide, (C6_average_step_time aW2 psW2).1 (by decide)⟩

/-- C7 counterexample: a completed record with `time_spent = 0` (non-null)
is excluded by the truthiness filter, and with no qualifying records the
`exclude_none` update retains the previously stored names instead of
setting them to `none` or to this record's step name. -/
theorem C7_counterexample :
    pC7.status = StepStatus.completed
    ∧ pC7.time_spent = some 0
    ∧ pC7.step_name = StepName.service_selection
    ∧ (update_analytics_from_progress aC7 [pC7]).fastest_step = some StepName.review
    ∧ (update_analytics_from_progress aC7 [pC7]).slowest_step = some StepName.review := by
  decide

/-- C7 (amended): `fastest_step`/`slowest_step` are the step names of the
minimum/maximum `time_spent` among completed records whose `time_spent` is
present and non-zero (truthy); when no such record exists, both fields
keep their previously stored values (they are not cleared to `none`). -/
theorem C7_fastest_slowest (a : Analytics) (ps : List StepProgress) :
    (∀ p : StepProgress, p ∈ completedWithTime ps ↔
        (p ∈ ps ∧ p.status = StepStatus.completed ∧ intTruthy p.time_spent = true))
    ∧ (completedWithTime ps = [] →
        (update_analytics_from_progress a ps).fastest_step = a.fastest_step ∧
        (update_analytics_from_progress a ps).slowest_step = a.slowest_step)
    ∧ (completedWithTime ps ≠ [] →
        ∃ pmin pmax, pmin ∈ completedWithTime ps ∧ pmax ∈ completedWithTime ps ∧
          (update_analytics_from_progress a ps).fastest_step = some pmin.step_name ∧
          (update_analytics_from_progress a ps).slowest_step = some pmax.step_name ∧
          ∀ q ∈ completedWithTime ps, timeKey pmin ≤ timeKey q ∧ timeKey q ≤ timeKey pmax) := by
  refine ⟨?_, ?_, ?_⟩
  · intro p
    unfold completedWithTime
    simp [List.mem_filter]
  · intro hsel
    unfold update_analytics_from_progress
    dsimp only
    rw [hsel]
    exact ⟨rfl, rfl⟩
  · intro hsel
    obtain ⟨pmin, hm1, hm2, hm3⟩ := pyMin_spec _ hsel
    obtain ⟨pmax, hx1, hx2, hx3⟩ := pyMax_spec _ hsel
    refine ⟨pmin, pmax, hm2, hx2, ?_, ?_, ?_⟩
    · unfold update_analytics_from_progress
      dsimp only
      rw [hm1]
      rfl
    · unfold update_analytics_from_progress
      dsimp only
      rw [hx1]
      rfl
    · intro q hq
      exact ⟨hm3 q hq, hx3 q hq⟩

/-- C7 witness: two completed records with positive times (4s on step A,
2s on step B): the fastest is B, the slowest is A. -/
theorem C7_fastest_slowest_witness :
    ∃ pmin pmax, pmin ∈ completedWithTime psW7 ∧ pmax ∈ completedWithTime psW7 ∧
      (update_analytics_from_progress aC7 psW7).fastest_step = some pmin.step_name ∧
      (update_analytics_from_progress aC7 psW7).slowest_step = some pmax.step_name ∧
      ∀ q ∈ completedWithTime psW7, timeKey pmin ≤ timeKey q ∧ timeKey q ≤ timeKey pmax :=
  (C7_fastest_slowest aC7 psW7).2.2 (by decide)

/-- C1: evaluating `submit_step_data` on a payload (the empty dict) that
omits the step's declared required field "name": the call succeeds with an
unconditionally valid validation result, the row is transitioned to
`completed` (not kept `in_progress`), `attempt_count` stays at 1 (it is
never incremented), and `validation_errors` stays `none` (never recorded).
The engine performs no payload validation at all. -/
theorem C1_code_behavior :
    stepSel.required_fields = some ["name"]
    ∧ reqC1.step_data = []
    ∧ (submit_step_data dbC1 reqC1 10).2 = Except.ok resC1
    ∧ resC1.validation_result.is_valid = true
    ∧ resC1.validation_result.errors = []
    ∧ ((get_step_progress dbC1.progress "s" "A").map (fun p => p.attempt_count)) = some 1
    ∧ ((get_step_progress (submit_step_data dbC1 reqC1 10).1.progress "s" "A").map
        (fun p => (p.status, p.attempt_count, p.validation_errors))) =
        some (StepStatus.completed, 1, none) := by decide

/-- C3 counterexample: on a catalog whose applicable steps for web_app are
numbered 2 and 3, `start_flow` succeeds but creates every row — including
the first of the ordered sequence — as `pending` with `started_at` unset,
because the source keys the initial status off `step_number == 1`, not off
being first in the sequence. -/
theorem C3_counterexample :
    (get_steps_for_service_type dbC3.steps reqC3.service_type).map (fun s => s.step_number) = [2, 3]
    ∧ resultIsOk (start_flow dbC3 reqC3 "s" 10).2 = true
    ∧ ((start_flow dbC3 reqC3 "s" 10).1.progress.map (fun p => (p.status, p.started_at))) =
        [(StepStatus.pending, none), (StepStatus.pending, none)] := by decide

/-- C3 (amended): when the applicable-step sequence is non-empty,
`start_flow` creates exactly one StepProgress row per applicable step (one
analytics row plus the mapped progress rows, in sequence order); a row is
`pending` exactly when its step's `step_number > 1` and `in_progress`
exactly when `step_number <= 1`, and `started_at = now` exactly when
`step_number = 1`.  (The first row of the sequence is therefore
`in_progress` with `started_at` set only when its step is numbered 1.) -/
theorem C3_start_flow_rows (db : DBState) (req : StartOnboardingFlowRequest)
    (sid : String) (now : Nat)
    (h : get_steps_for_service_type db.steps req.service_type ≠ []) :
    (∃ res, start_flow db req sid now =
      ({ db with
          analytics := db.analytics ++
            [initAnalyticsRow ("a/" ++ sid) sid
              ((get_steps_for_service_type db.steps req.service_type).length : Int) now]
          progress := db.progress ++
            (get_steps_for_service_type db.steps req.service_type).map
              (initProgressRow sid now) }, Except.ok res))
    ∧ ((get_steps_for_service_type db.steps req.service_type).map
        (initProgressRow sid now)).length =
        (get_steps_for_service_type db.steps req.service_type).length
    ∧ ∀ s ∈ get_steps_for_service_type db.steps req.service_type,
        ((initProgressRow sid now s).status = StepStatus.pending ↔ 1 < s.step_number)
        ∧ ((initProgressRow sid now s).status = StepStatus.in_progress ↔ s.step_number ≤ 1)
        ∧ ((initProgressRow sid now s).started_at = some now ↔ s.step_number = 1)
        ∧ (initProgressRow sid now s).step_id = s.id
        ∧ (initProgressRow sid now s).submission_id = some sid
        ∧ (initProgressRow sid now s).completed_at = none := by
  refine ⟨?_, List.length_map _ _, ?_⟩
  · unfold start_flow
    rw [if_neg (by simp [h])]
    exact ⟨_, rfl⟩
  · intro s _
    unfold initProgressRow
    dsimp only
    refine ⟨?_, ?_, ?_, rfl, rfl, rfl⟩
    · by_cases h1 : s.step_number > 1
      · rw [if_pos h1]
        exact ⟨fun _ => h1, fun _ => rfl⟩
      · rw [if_neg h1]
        exact ⟨fun hx => absurd hx (by decide), fun hx => absurd hx h1⟩
    · by_cases h1 : s.step_number > 1
      · rw [if_pos h1]
        exact ⟨fun hx => absurd hx (by decide), fun hx => absurd hx (by omega)⟩
      · rw [if_neg h1]
        exact ⟨fun _ => by omega, fun _ => rfl⟩
    · by_cases h1 : s.step_number = 1
      · rw [if_pos h1]
        exact ⟨fun _ => h1, fun _ => rfl⟩
      · rw [if_neg h1]
        exact ⟨fun hx => Option.noConfusion hx, fun hx => absurd hx h1⟩

/-- C3 witness: the two-step web_app catalog has a non-empty sequence. -/
theorem C3_start_flow_rows_witness :
    get_steps_for_service_type dbC3.steps reqC3.service_type ≠ []
    ∧ (∃ res, start_flow dbC3 reqC3 "s" 10 =
        ({ dbC3 with
            analytics := dbC3.analytics ++
              [initAnalyticsRow ("a/" ++ "s") "s"
                ((get_steps_for_service_type dbC3.steps reqC3.service_type).length : Int) 10]
            progress := dbC3.progress ++
              (get_steps_for_service_type dbC3.steps reqC3.service_type).map
                (initProgressRow "s" 10) }, Except.ok res)) :=
  ⟨by decide, (C3_start_flow_rows dbC3 reqC3 "s" 10 (by decide)).1⟩

/-- C4: on a web-app session (progress rows exist for steps A and C only),
submitting step A looks the next step up with the hard-coded
`ServiceType.LANDING_PAGE` (a TODO in the source), obtains the
landing-page-only step B, finds no progress row for it and fails with
`NotFoundError` — although a next applicable step for the session's own
service type (C, which has a pending row) exists, so the claimed
behaviour (success with `can_proceed = true`) does not occur. -/
theorem C4_code_behavior :
    (submit_step_data dbC4 reqC4 10).2 = Except.error FlowError.notFound
    ∧ ((get_next_step dbC4.steps "A" ServiceType.web_app).map (fun s => s.id)) = some "C"
    ∧ ((get_next_step dbC4.steps "A" ServiceType.landing_page).map (fun s => s.id)) = some "B"
    ∧ (get_step_progress dbC4.progress "s" "C").isSome = true
    ∧ (get_step_progress dbC4.progress "s" "B") = none := by decide

/-- C5 counterexample: an active step whose `service_types` is a present
but empty list matches no service type at all — it is excluded from
`get_applicable_steps`, although the claim says an empty set means the
step applies to every service type. -/
theorem C5_counterexample :
    stepEmptySvc.is_active = true
    ∧ stepEmptySvc.service_types = some []
    ∧ get_steps_for_service_type [stepEmptySvc] ServiceType.landing_page = [] := by decide

/-- C5 (amended): `get_applicable_steps` returns exactly the active steps
whose `service_types` is absent (NULL) or contains the requested service
type — a present-but-empty list matches nothing — ordered ascending by
`step_number`; and when this sequence is empty `start_flow` fails with a
configuration error leaving the store untouched. -/
theorem C5_applicable_steps (db : DBState) (req : StartOnboardingFlowRequest)
    (sid : String) (now : Nat) :
    (∀ s : Step, s ∈ get_steps_for_service_type db.steps req.service_type ↔
        (s ∈ db.steps ∧ s.is_active = true ∧
          (s.service_types = none ∨ ∃ l, s.service_types = some l ∧ req.service_type ∈ l)))
    ∧ List.Sorted stepLE (get_steps_for_service_type db.steps req.service_type)
    ∧ (get_steps_for_service_type db.steps req.service_type = [] →
        start_flow db req sid now = (db, Except.error FlowError.validationException)) := by
  refine ⟨?_, ?_, ?_⟩
  · intro s
    unfold get_steps_for_service_type
    rw [List.mem_insertionSort, List.mem_filter, stepApplicable_iff]
  · exact List.sorted_insertionSort stepLE _
  · intro hempty
    unfold start_flow
    rw [hempty]
    rfl

/-- C5 witness: a catalog whose only step is web_app-only yields no
applicable steps for a landing-page flow, and `start_flow` fails without
touching the store. -/
theorem C5_applicable_steps_witness :
    get_steps_for_service_type dbW5.steps reqW5.service_type = []
    ∧ start_flow dbW5 reqW5 "s" 0 = (dbW5, Except.error FlowError.validationException) :=
  ⟨by decide, (C5_applicable_steps dbW5 reqW5 "s" 0).2.2 (by decide)⟩

/-- C8: in the two-step flow, submitting step A at t=10 stamps
`completed_at = 10`; resubmitting the same step at t=30 overwrites it to
30 (the explicit `completed_at` keyword bypasses the first-entry guard of
`update_step_status`), and the next-step activation likewise overwrites
step B's already-set `started_at` from 10 to 30 while demoting it from
`completed` back to `in_progress` — so the timestamps are not assigned
at most once. -/
theorem C8_code_behavior :
    resultIsOk subA1.2 = true
    ∧ resultIsOk subB2.2 = true
    ∧ resultIsOk subA3.2 = true
    ∧ ((get_step_progress subA1.1.progress "s" "A").map (fun p => p.completed_at)) = some (some 10)
    ∧ ((get_step_progress subA3.1.progress "s" "A").map (fun p => p.completed_at)) = some (some 30)
    ∧ ((get_step_progress subB2.1.progress "s" "B").map (fun p => (p.status, p.started_at))) =
        some (StepStatus.completed, some 10)
    ∧ ((get_step_progress subA3.1.progress "s" "B").map (fun p => (p.status, p.started_at))) =
        some (StepStatus.in_progress, some 30) := by decide

/-- C9 counterexample: in the two-step flow, after submitting A then B the
stored completion rate is 100; a further successful resubmission of A
demotes B back to `in_progress` and drops the stored rate to 50 — the
rate is not monotone across successful `submit_step_data` calls. -/
theorem C9_counterexample :
    resultIsOk subA1.2 = true
    ∧ resultIsOk subB2.2 = true
    ∧ resultIsOk subA3.2 = true
    ∧ (subA1.1.analytics.map (fun a => a.completion_rate)) = [50]
    ∧ (subB2.1.analytics.map (fun a => a.completion_rate)) = [100]
    ∧ (subA3.1.analytics.map (fun a => a.completion_rate)) = [50] := by decide

/-- The progress percentage of every successful `submitFinish` outcome is
within `[0, 100]`. -/
theorem submitFinish_pct (db : DBState) (sid : String) (now : Nat)
    (vr : ValidationResult) (ns : Option Step) (db2 : DBState) (res : SubmitStepDataResult)
    (h : submitFinish db sid now vr ns = (db2, Except.ok res)) :
    0 ≤ res.progress_percentage ∧ res.progress_percentage ≤ 100 := by
  unfold submitFinish at h
  dsimp only at h
  cases hdb : db_update_analytics_from_progress now db.analytics sid
      (get_session_progress db.progress sid) with
  | error e =>
      rw [hdb] at h
      dsimp only at h
      exact absurd h (by simp)
  | ok pr =>
      obtain ⟨t2, a2⟩ := pr
      rw [hdb] at h
      dsimp only at h
      injection h with h1 h2
      injection h2 with h3
      rw [← h3]
      exact progressPct_bounds _

/-- C9 (amended): the `progress_percentage` returned by every successful
`submit_step_data` call is in `[0, 100]`, and the stored `completion_rate`
is in `[0, 100]` whenever the completed count does not exceed the row's
`total_steps` (which holds in a flow, where the session's row count equals
`total_steps`); monotonicity does not hold (see the counterexample). -/
theorem C9_completion_rate :
    (∀ (db : DBState) (req : SubmitStepDataRequest) (now : Nat) (db2 : DBState)
        (res : SubmitStepDataResult),
      submit_step_data db req now = (db2, Except.ok res) →
        0 ≤ res.progress_percentage ∧ res.progress_percentage ≤ 100)
    ∧ (∀ (a : Analytics) (ps : List StepProgress),
        countStatus StepStatus.completed ps ≤ a.total_steps →
          0 ≤ (update_analytics_from_progress a ps).completion_rate ∧
          (update_analytics_from_progress a ps).completion_rate ≤ 100) := by
  constructor
  · intro db req now db2 res h
    unfold submit_step_data at h
    repeat' (first | split at h | dsimp only at h)
    all_goals first
      | exact absurd h (by simp)
      | exact submitFinish_pct _ _ _ _ _ _ _ h
  · intro a ps hle
    unfold update_analytics_from_progress
    dsimp only
    by_cases ht : a.total_steps > 0
    · rw [if_pos ht]
      exact rate_fdiv_bounds _ _ (countStatus_nonneg _ _) hle ht
    · rw [if_neg ht]
      exact ⟨le_refl 0, by norm_num⟩

/-- C9 witness: the one-step flow submission returns percentage 100, and
a concrete analytics recompute stays within range. -/
theorem C9_completion_rate_witness :
    (0 ≤ resC1.progress_percentage ∧ resC1.progress_percentage ≤ 100)
    ∧ (0 ≤ (update_analytics_from_progress aW2 psW2).completion_rate ∧
        (update_analytics_from_progress aW2 psW2).completion_rate ≤ 100) :=
  ⟨C9_completion_rate.1 dbC1 reqC1 10 (submit_step_data dbC1 reqC1 10).1 resC1 (by rfl),
   C9_completion_rate.2 aW2 psW2 (by decide)⟩

/-- C10: for a session that has an analytics row but no progress rows,
`get_flow_state` returns a state (not `none`) whose current step is 1,
whose current step name is `service_selection`, and whose step history
and form data are both empty. -/
theorem C10_flow_state_defaults (db : DBState) (sid : String)
    (h1 : (analytics_get_by_session_id db.analytics sid).isSome = true)
    (h2 : db.progress.filter (fun p => p.submission_id == some sid) = []) :
    ∃ st : OnboardingFlowState, get_flow_state db sid = some st
      ∧ st.current_step = 1
      ∧ st.current_step_name = StepName.service_selection
      ∧ st.step_history = []
      ∧ st.form_data = [] := by
  obtain ⟨a, ha⟩ := Option.isSome_iff_exists.mp h1
  have hsp : get_session_progress db.progress sid = [] := by
    unfold get_session_progress
    rw [h2]
    rfl
  unfold get_flow_state
  rw [ha, hsp]
  exact ⟨_, rfl, rfl, rfl, rfl, rfl⟩

/-- C10 witness: a concrete store holding only an analytics row for the
session. -/
theorem C10_flow_state_defaults_witness :
    ∃ st : OnboardingFlowState, get_flow_state dbC10 "s" = some st
      ∧ st.current_step = 1
      ∧ st.current_step_name = StepName.service_selection
      ∧ st.step_history = []
      ∧ st.form_data = [] :=
  C10_flow_state_defaults dbC10 "s" (by decide) (by decide)

end Onboarding
